import Mathlib

/-!
Shallow embedding of the clinical-trials registry client
(`src/clinical_trials_api.py`) and proofs of the spec's testable
properties.

Python strings are modelled as Lean `String`s; Python slicing, `split`,
`strip` and the `in` operator act on code points, so they are embedded
as structurally recursive functions over `String.data : List Char`.
The registry (HTTP boundary) is modelled as an explicit fetch function
`Params → Reply` passed to each operation; a `Reply.failure` stands for
any transport or parse failure raised inside the `try` block (timeout,
connection failure, non-2xx after `raise_for_status`, malformed JSON).
-/

namespace CTA

/-! ### Python string primitives -/

/-- Python `s[:n]` on a string: the first `n` code points. -/
def pyTake (s : String) (n : Nat) : String :=
  ⟨s.data.take n⟩

/-- Does `pre` occur as a prefix of `l`? (helper for `pySplit`). -/
def listIsPrefix : List Char → List Char → Bool
  | [], _ => true
  | _ :: _, [] => false
  | c :: cs, d :: ds => c == d && listIsPrefix cs ds

/-- Fuelled worker for Python `str.split(sep)` with a non-empty separator:
scan left to right, emitting the accumulated chunk whenever `sep` is a
prefix of the remainder.  Fuel `s.length + 1` always suffices. -/
def pySplitGo (sep : List Char) : Nat → List Char → List Char → List (List Char)
  | 0, acc, rest => [acc.reverse ++ rest]
  | fuel + 1, acc, s =>
    if sep ≠ [] ∧ listIsPrefix sep s then
      acc.reverse :: pySplitGo sep fuel [] (s.drop sep.length)
    else
      match s with
      | [] => [acc.reverse]
      | c :: cs => pySplitGo sep fuel (c :: acc) cs

/-- Python `s.split(sep)` for a non-empty separator. -/
def pySplit (sep s : String) : List String :=
  (pySplitGo sep.data (s.data.length + 1) [] s.data).map (fun l => ⟨l⟩)

/-- Python `sep in s` for a non-empty `sep`: true iff splitting on `sep`
produces at least two parts. -/
def pyContains (sep s : String) : Bool :=
  decide (2 ≤ (pySplit sep s).length)

/-- Python `s.strip()` restricted to the whitespace characters Lean's
`Char.isWhitespace` knows (space, tab, CR, LF) — the only ones occurring
in registry data. -/
def pyStrip (s : String) : String :=
  ⟨((s.data.dropWhile Char.isWhitespace).reverse.dropWhile Char.isWhitespace).reverse⟩

/-- Python truthiness of an optional string argument: `None` and `""` are
falsy, every other string is truthy. -/
def truthy : Option String → Bool
  | none => false
  | some s => decide (s ≠ "")

/-! ### Raw registry payloads

A raw study object after the default-filling performed by the chains of
`.get(..., default)` in `_parse_study`: every field the code reads is
present, with the code's documented default standing for a missing key.
`facility` keeps its `Option` because the two consumers use different
defaults (`""` in `_parse_study`, `"Unknown"` in `extract_sites`);
`geoPoint` is carried opaquely (the code never inspects it), `none`
standing for the `{}` default. -/

structure RawIntervention where
  itype : String := ""
  name : String := ""
  description : String := ""
  deriving DecidableEq, Repr

structure RawLocation where
  facility : Option String := none
  city : String := ""
  state : String := ""
  country : String := ""
  status : String := ""
  geoPoint : Option String := none
  deriving DecidableEq, Repr

structure RawOutcome where
  measure : String := ""
  description : String := ""
  timeFrame : String := ""
  deriving DecidableEq, Repr

structure RawStudy where
  nctId : String := ""
  briefTitle : String := ""
  officialTitle : String := ""
  acronym : String := ""
  organizationFullName : String := ""
  overallStatus : String := ""
  startDate : String := ""
  startDateType : String := ""
  completionDate : String := ""
  completionDateType : String := ""
  primaryCompletionDate : String := ""
  firstPosted : String := ""
  lastUpdated : String := ""
  firstSubmitDate : String := ""
  sponsorName : String := ""
  sponsorClass : String := ""
  investigatorFullName : String := ""
  investigatorAffiliation : String := ""
  briefSummary : String := ""
  detailedDescription : String := ""
  conditions : List String := []
  studyType : String := ""
  phases : List String := []
  enrollmentCount : Nat := 0
  enrollmentType : String := ""
  allocation : String := ""
  interventionModel : String := ""
  primaryPurpose : String := ""
  interventions : List RawIntervention := []
  eligibilityCriteria : String := ""
  healthyVolunteers : Bool := false
  sex : String := ""
  minAge : String := ""
  maxAge : String := ""
  stdAges : List String := []
  locations : List RawLocation := []
  primaryOutcomes : List RawOutcome := []
  secondaryOutcomes : List RawOutcome := []
  deriving DecidableEq, Repr

/-! ### Normalized trial records (`_parse_study`) -/

structure Intervention where
  itype : String
  name : String
  description : String
  deriving DecidableEq, Repr

structure ParsedLocation where
  facility : String
  city : String
  state : String
  country : String
  status : String
  deriving DecidableEq, Repr

structure Enrollment where
  count : Nat
  etype : String
  deriving DecidableEq, Repr

structure Dates where
  start : String
  startType : String
  completion : String
  completionType : String
  primaryCompletion : String
  firstPosted : String
  lastUpdated : String
  firstSubmit : String
  deriving DecidableEq, Repr

structure Eligibility where
  criteria : String := ""
  sex : String := ""
  minAge : String := ""
  maxAge : String := ""
  stdAges : List String := []
  healthyVolunteers : Bool := false
  deriving DecidableEq, Repr

structure Design where
  allocation : String
  interventionModel : String
  primaryPurpose : String
  deriving DecidableEq, Repr

structure PrimaryOutcome where
  measure : String
  description : String
  timeFrame : String
  deriving DecidableEq, Repr

structure SecondaryOutcome where
  measure : String
  timeFrame : String
  deriving DecidableEq, Repr

/-- The keys `_parse_study` adds to the result dict only when
`full_details=True`. -/
structure FullExtras where
  officialTitle : String
  organization : String
  investigator : String
  investigatorAffiliation : String
  briefSummary : String
  detailedDescription : String
  design : Design
  primaryOutcomes : List PrimaryOutcome
  secondaryOutcomes : List SecondaryOutcome
  deriving DecidableEq, Repr

/-- A normalized Trial Record; `extras = none` is the compact variant,
`extras = some _` the full-detail variant. -/
structure ParsedStudy where
  nctId : String := ""
  title : String := ""
  acronym : String := ""
  status : String := ""
  phases : List String := []
  studyType : String := ""
  conditions : List String := []
  interventions : List Intervention := []
  sponsor : String := ""
  sponsorClass : String := ""
  enrollment : Enrollment := ⟨0, ""⟩
  dates : Dates := ⟨"", "", "", "", "", "", "", ""⟩
  eligibility : Eligibility := {}
  locations : List ParsedLocation := []
  extras : Option FullExtras := none
  deriving DecidableEq, Repr

/-- Embedding of `_parse_study(study, full_details)`. -/
def parseStudy (s : RawStudy) (fullDetails : Bool) : ParsedStudy :=
  { nctId := s.nctId
    title := s.briefTitle
    acronym := s.acronym
    status := s.overallStatus
    phases := s.phases
    studyType := s.studyType
    conditions := s.conditions
    interventions := s.interventions.map (fun i =>
      { itype := i.itype
        name := i.name
        description := if fullDetails then i.description else pyTake i.description 200 })
    sponsor := s.sponsorName
    sponsorClass := s.sponsorClass
    enrollment := ⟨s.enrollmentCount, s.enrollmentType⟩
    dates :=
      { start := s.startDate
        startType := s.startDateType
        completion := s.completionDate
        completionType := s.completionDateType
        primaryCompletion := s.primaryCompletionDate
        firstPosted := s.firstPosted
        lastUpdated := s.lastUpdated
        firstSubmit := s.firstSubmitDate }
    eligibility :=
      { criteria := if fullDetails then s.eligibilityCriteria else pyTake s.eligibilityCriteria 800
        sex := s.sex
        minAge := s.minAge
        maxAge := s.maxAge
        stdAges := s.stdAges
        healthyVolunteers := s.healthyVolunteers }
    locations := (s.locations.take 10).map (fun l =>
      { facility := l.facility.getD ""
        city := l.city
        state := l.state
        country := l.country
        status := l.status })
    extras :=
      if fullDetails then
        some
          { officialTitle := s.officialTitle
            organization := s.organizationFullName
            investigator := s.investigatorFullName
            investigatorAffiliation := s.investigatorAffiliation
            briefSummary := s.briefSummary
            detailedDescription := s.detailedDescription
            design := ⟨s.allocation, s.interventionModel, s.primaryPurpose⟩
            primaryOutcomes := s.primaryOutcomes.map (fun o => ⟨o.measure, o.description, o.timeFrame⟩)
            secondaryOutcomes := s.secondaryOutcomes.map (fun o => ⟨o.measure, o.timeFrame⟩) }
      else none }

/-! ### Registry boundary -/

/-- The query parameters a list-returning endpoint request carries
(`format=json` is a fixed constant and omitted).  `pageToken` is absent
(`none`) on a first page. -/
structure Params where
  pageSize : Int
  queryTerm : Option String := none
  pageToken : Option String := none
  deriving DecidableEq, Repr

/-- A successful registry response body: top-level `studies` plus an
optional continuation token. -/
structure Resp where
  studies : List RawStudy := []
  nextPageToken : Option String := none
  deriving DecidableEq, Repr

/-- Outcome of one `requests.get` + `raise_for_status` + `.json()`
sequence: `failure` is any raised transport or parse exception (timeout,
connection failure, non-2xx status, malformed JSON body), `success` a
decoded body. -/
inductive Reply where
  | failure (msg : String)
  | success (r : Resp)
  deriving DecidableEq, Repr

/-- The registry as seen by the list endpoints. -/
abbrev Fetch := Params → Reply

/-- Query filter for `search_trials` (its nine optional keyword
arguments, each defaulting to `None`). -/
structure Filter where
  condition : Option String := none
  phase : Option String := none
  status : Option String := none
  location : Option String := none
  sponsor : Option String := none
  intervention : Option String := none
  studyType : Option String := none
  startDateFrom : Option String := none
  startDateTo : Option String := none
  deriving DecidableEq, Repr

/-- One `if <field>: query_parts.append(f"AREA[...]{...}")` block: a
segment that is a single clause when the field is truthy and empty
otherwise. -/
def seg (o : Option String) (area : String) : List String :=
  if truthy o then ["AREA[" ++ area ++ "]" ++ o.getD ""] else []

/-- The `if start_date_from and start_date_to: ... elif ... elif ...`
chain of `search_trials`. -/
def dateSeg (dfrom dto : Option String) : List String :=
  if truthy dfrom ∧ truthy dto then
    ["AREA[StartDate]RANGE[" ++ dfrom.getD "" ++ "," ++ dto.getD "" ++ "]"]
  else if truthy dfrom then
    ["AREA[StartDate]RANGE[" ++ dfrom.getD "" ++ ",MAX]"]
  else if truthy dto then
    ["AREA[StartDate]RANGE[MIN," ++ dto.getD "" ++ "]"]
  else []

/-- The `query_parts` list as built by `search_trials`, in declaration order. -/
def searchQueryParts (f : Filter) : List String :=
  seg f.condition "Condition" ++ seg f.phase "Phase" ++
  seg f.status "OverallStatus" ++ seg f.location "LocationCountry" ++
  seg f.sponsor "LeadSponsorName" ++ seg f.intervention "InterventionName" ++
  seg f.studyType "StudyType" ++ dateSeg f.startDateFrom f.startDateTo

/-- The four-field `query_parts` block that `count_trials` and
`extract_sites` both repeat verbatim. -/
def basicQueryParts (condition phase status location : Option String) : List String :=
  seg condition "Condition" ++ seg phase "Phase" ++
  seg status "OverallStatus" ++ seg location "LocationCountry"

/-- The `query.term` parameter is set only when `query_parts` is non-empty;
the clauses are joined with `" AND "`. -/
def queryTermOf (parts : List String) : Option String :=
  if parts = [] then none else some (String.intercalate " AND " parts)

/-! ### `search_trials` -/

/-- Result of `search_trials`: the error dict or a list of compact
records. -/
inductive SearchResult where
  | error (msg : String)
  | ok (records : List ParsedStudy)
  deriving DecidableEq, Repr

/-- The request `search_trials` issues. -/
def searchParams (f : Filter) (maxResults : Int) : Params :=
  { pageSize := min maxResults 20
    queryTerm := queryTermOf (searchQueryParts f) }

/-- Embedding of `search_trials`. -/
def searchTrials (fetch : Fetch) (f : Filter) (maxResults : Int) : SearchResult :=
  match fetch (searchParams f maxResults) with
  | .failure m => .error m
  | .success r => .ok (r.studies.map (parseStudy · false))

/-! ### `count_trials` -/

/-- Result of `count_trials`: the error dict, or `{count, is_exact}`
with the optional `note` key present exactly in the inexact case. -/
inductive CountResult where
  | error (msg : String)
  | ok (count : Nat) (isExact : Bool) (note : Option String)
  deriving DecidableEq, Repr

/-- The request the count loop issues for a given continuation token. -/
def countParams (condition phase status location : Option String)
    (tok : Option String) : Params :=
  { pageSize := 100
    queryTerm := queryTermOf (basicQueryParts condition phase status location)
    pageToken := tok }

/-- Python truthiness of the `nextPageToken` value (`data.get` yields
`None` for a missing key; an empty string is likewise falsy). -/
def tokTruthy : Option String → Bool := truthy

/-- The `while page_count < max_pages` loop of `count_trials`, with fuel
the number of pages still allowed. -/
def countLoop (fetch : Fetch) (condition phase status location : Option String) :
    Nat → Nat → Option String → CountResult
  | 0, acc, _ => .ok acc false (some ("At least " ++ toString acc ++ " trials"))
  | fuel + 1, acc, tok =>
    match fetch (countParams condition phase status location tok) with
    | .failure m => .error m
    | .success r =>
      let acc' := acc + r.studies.length
      if tokTruthy r.nextPageToken then
        countLoop fetch condition phase status location fuel acc' r.nextPageToken
      else
        .ok acc' true none

/-- Embedding of `count_trials` (`max_pages = 3`). -/
def countTrials (fetch : Fetch) (condition phase status location : Option String) :
    CountResult :=
  countLoop fetch condition phase status location 3 0 none

/-- The sizes of the pages the count loop actually receives, in fetch
order (empty past a failure or a falsy token). -/
def countVisited (fetch : Fetch) (condition phase status location : Option String) :
    Nat → Option String → List Nat
  | 0, _ => []
  | fuel + 1, tok =>
    match fetch (countParams condition phase status location tok) with
    | .failure _ => []
    | .success r =>
      r.studies.length ::
        (if tokTruthy r.nextPageToken then
          countVisited fetch condition phase status location fuel r.nextPageToken
        else [])

/-! ### `show_trials` -/

/-- The registry as seen by `show_trials`: a direct GET of a path,
returning either a raised exception (`Except.error`) or a decoded study
object.  `show_trials` has no `try` block, so the error side propagates
to the caller. -/
abbrev ShowFetch := String → Except String RawStudy

def ctApiBase : String := "https://clinicaltrials.gov/api/v2/studies"

/-- What the caller of `show_trials` observes: either a raised
exception escaping the function or a returned record. -/
inductive ShowOutcome where
  | raised (msg : String)
  | returned (record : ParsedStudy)
  deriving DecidableEq, Repr

/-- Embedding of `show_trials`. -/
def showTrials (fetch : ShowFetch) (nctId : String) : ShowOutcome :=
  match fetch (ctApiBase ++ "/" ++ nctId) with
  | .error m => .raised m
  | .ok data => .returned (parseStudy data true)

/-! ### `extract_sites` -/

structure SiteRecord where
  nctId : String
  facility : String
  city : String
  state : String
  country : String
  status : String
  geoPoint : Option String
  deriving DecidableEq, Repr

inductive SitesResult where
  | error (msg : String)
  | ok (sites : List SiteRecord)
  deriving DecidableEq, Repr

def mkSite (nct : String) (l : RawLocation) : SiteRecord :=
  { nctId := nct
    facility := l.facility.getD "Unknown"
    city := l.city
    state := l.state
    country := l.country
    status := l.status
    geoPoint := l.geoPoint }

/-- Inner `for loc in locations` loop: append a site after each
location, breaking once the output holds 50 entries. -/
def sitesInner (nct : String) : List RawLocation → List SiteRecord → List SiteRecord
  | [], acc => acc
  | l :: ls, acc =>
    let acc' := acc ++ [mkSite nct l]
    if 50 ≤ acc'.length then acc' else sitesInner nct ls acc'

/-- Outer `for trial in trials` loop with its own 50-entry break. -/
def sitesOuter : List RawStudy → List SiteRecord → List SiteRecord
  | [], acc => acc
  | t :: ts, acc =>
    let acc' := sitesInner t.nctId t.locations acc
    if 50 ≤ acc'.length then acc' else sitesOuter ts acc'

/-- The request `extract_sites` issues. -/
def extractParams (condition phase status location : Option String)
    (maxResults : Int) : Params :=
  { pageSize := min maxResults 20
    queryTerm := queryTermOf (basicQueryParts condition phase status location) }

/-- Embedding of `extract_sites`. -/
def extractSites (fetch : Fetch) (condition phase status location : Option String)
    (maxResults : Int) : SitesResult :=
  match fetch (extractParams condition phase status location maxResults) with
  | .failure m => .error m
  | .success r => .ok (sitesOuter r.studies [])

/-- Every location of every trial, flattened in trial order then
per-trial location order (the uncapped flattening). -/
def flattenSites (trials : List RawStudy) : List SiteRecord :=
  trials.flatMap (fun t => t.locations.map (mkSite t.nctId))

/-! ### `analyze_criteria` -/

/-- The argument of `analyze_criteria`: either the error dict produced
upstream or a list of normalized records. -/
inductive CriteriaInput where
  | errDict (msg : String)
  | trials (records : List ParsedStudy)
  deriving DecidableEq, Repr

/-- The return value of `analyze_criteria`. -/
inductive CriteriaOutput where
  | errDict (msg : String)
  | result (inclusion exclusion : List String)
  deriving DecidableEq, Repr

/-- The per-trial body of the `for trial in trials` loop: appends the
fragments this record contributes to the two accumulated lists. -/
def criteriaStep (acc : List String × List String) (t : ParsedStudy) :
    List String × List String :=
  let text := t.eligibility.criteria
  if text = "" then acc
  else
    let acc1 :=
      if pyContains "Inclusion Criteria" text then
        let it := ((pySplit "Inclusion Criteria" text).getD 1 "")
        let it :=
          if pyContains "Exclusion Criteria" it then
            (pySplit "Exclusion Criteria" it).getD 0 ""
          else it
        (acc.1 ++ [pyStrip it], acc.2)
      else acc
    if pyContains "Exclusion Criteria" text then
      (acc1.1, acc1.2 ++ [pyStrip ((pySplit "Exclusion Criteria" text).getD 1 "")])
    else acc1

/-- Embedding of `analyze_criteria`. -/
def analyzeCriteria : CriteriaInput → CriteriaOutput
  | .errDict m => .errDict m
  | .trials records =>
    let acc := records.foldl criteriaStep ([], [])
    .result acc.1 acc.2

/-! ### Date parsing (`parse_date` inside `calculate_statistics`)

`datetime.strptime` is embedded format by format.  For `"%Y-%m-%d"` the
compiled pattern is 4 digits, `-`, 1–2 digits with value 1–12, `-`,
1–2 digits with value 1–31, with the whole string consumed, after which
the `datetime` constructor validates the day against the month and
rejects year 0. -/

structure Date where
  year : Nat
  month : Nat
  day : Nat
  deriving DecidableEq, Repr

def isLeapYear (y : Nat) : Bool :=
  (y % 4 = 0 && y % 100 ≠ 0) || y % 400 = 0

def daysInMonth (y m : Nat) : Nat :=
  if m = 2 then (if isLeapYear y then 29 else 28)
  else if m = 4 ∨ m = 6 ∨ m = 9 ∨ m = 11 then 30
  else 31

def allDigits (s : String) : Bool :=
  s ≠ "" && s.data.all Char.isDigit

def digitsVal (s : String) : Nat :=
  s.data.foldl (fun a c => a * 10 + (c.toNat - 48)) 0

/-- A `%Y` field: exactly four digits. -/
def yearField (s : String) : Option Nat :=
  if allDigits s ∧ s.length = 4 then some (digitsVal s) else none

/-- A `%m`-style field: one or two digits whose value lies in
`[lo, hi]` (the compiled patterns `1[0-2]|0[1-9]|[1-9]` and
`3[01]|[12]\d|0[1-9]|[1-9]` are equivalent to this). -/
def boundedField (lo hi : Nat) (s : String) : Option Nat :=
  if allDigits s ∧ s.length ≤ 2 ∧ lo ≤ digitsVal s ∧ digitsVal s ≤ hi then
    some (digitsVal s)
  else none

/-- The `datetime` constructor's validity check (year ≥ 1, day fits the
month; month range is already enforced by the field pattern). -/
def mkValidDate (y m d : Nat) : Option Date :=
  if 1 ≤ y ∧ d ≤ daysInMonth y m then some ⟨y, m, d⟩ else none

/-- Embedding of `strptime(s, "%Y-%m-%d")`. -/
def parseYmd (s : String) : Option Date :=
  match pySplit "-" s with
  | [ys, ms, ds] =>
    match yearField ys, boundedField 1 12 ms, boundedField 1 31 ds with
    | some y, some m, some d => mkValidDate y m d
    | _, _, _ => none
  | _ => none

/-- Embedding of `strptime(s, "%Y-%m")` (day defaults to 1). -/
def parseYm (s : String) : Option Date :=
  match pySplit "-" s with
  | [ys, ms] =>
    match yearField ys, boundedField 1 12 ms with
    | some y, some m => mkValidDate y m 1
    | _, _ => none
  | _ => none

def monthNames : List String :=
  ["january", "february", "march", "april", "may", "june", "july",
   "august", "september", "october", "november", "december"]

def lowerStr (s : String) : String :=
  ⟨s.data.map Char.toLower⟩

/-- Try to strip a (case-insensitively matched) full month name from the
front of `cs`, returning the month number and the remainder. -/
def stripMonth (cs : List Char) : Option (Nat × List Char) :=
  (List.enumFrom 1 monthNames).findSome? fun (idx, name) =>
    if listIsPrefix name.data cs then some (idx, cs.drop name.data.length)
    else none

/-- Strip the `\s+` a literal space in a strptime format compiles to. -/
def stripSpaces (cs : List Char) : Option (List Char) :=
  if cs.takeWhile Char.isWhitespace = [] then none
  else some (cs.dropWhile Char.isWhitespace)

/-- Embedding of `strptime(s, "%B %Y")` (day defaults to 1). -/
def parseBY (s : String) : Option Date :=
  match stripMonth (lowerStr s).data with
  | none => none
  | some (m, rest) =>
    match stripSpaces rest with
    | none => none
    | some rest =>
      match yearField ⟨rest⟩ with
      | some y => mkValidDate y m 1
      | none => none

/-- Embedding of `strptime(s, "%B %d, %Y")`. -/
def parseBdY (s : String) : Option Date :=
  match stripMonth (lowerStr s).data with
  | none => none
  | some (m, rest) =>
    match stripSpaces rest with
    | none => none
    | some rest =>
      let dayDigits := rest.takeWhile Char.isDigit
      let rest := rest.dropWhile Char.isDigit
      match boundedField 1 31 ⟨dayDigits⟩, rest with
      | some d, ',' :: rest =>
        match stripSpaces rest with
        | none => none
        | some rest =>
          match yearField ⟨rest⟩ with
          | some y => mkValidDate y m d
          | none => none
      | _, _ => none

/-- The `for fmt in (...)` loop: first format that parses wins. -/
def parseDate (s : String) : Option Date :=
  (parseYmd s).orElse fun _ =>
    (parseYm s).orElse fun _ =>
      (parseBY s).orElse fun _ => parseBdY s

/-- Proleptic-Gregorian ordinal of a date (day 1 = 0001-01-01), the
quantity `datetime` subtraction differences. -/
def dateOrdinal (d : Date) : Nat :=
  let y := d.year - 1
  let monthDays :=
    (List.range (d.month - 1)).foldl (fun a i => a + daysInMonth d.year (i + 1)) 0
  365 * y + y / 4 - y / 100 + y / 400 + monthDays + d.day

/-! ### `calculate_statistics` -/

/-- One Python-dict frequency table: an insertion-ordered association
list, `bump` being `d[k] = d.get(k, 0) + 1`. -/
def bump (tbl : List (String × Nat)) (k : String) : List (String × Nat) :=
  match tbl.lookup k with
  | some n => tbl.map (fun p => if p.1 = k then (p.1, n + 1) else p)
  | none => tbl ++ [(k, 1)]

/-- The fold accumulator of the statistics loop (the mutable parts of
the `stats` dict). -/
structure StatsAcc where
  phases : List (String × Nat) := []
  statuses : List (String × Nat) := []
  studyTypes : List (String × Nat) := []
  sponsors : List (String × Nat) := []
  enrollTotal : Nat := 0
  enrollCount : Nat := 0
  durTotal : Nat := 0
  durCount : Nat := 0
  durations : List Nat := []
  deriving DecidableEq, Repr

/-- The duration-relevant part of the loop body: both date strings must
be truthy, both must parse, and completion must strictly follow start;
otherwise the accumulator's duration fields are untouched. -/
def durationStep (t : ParsedStudy) (acc : StatsAcc) : StatsAcc :=
  if t.dates.start ≠ "" ∧ t.dates.completion ≠ "" then
    match parseDate t.dates.start, parseDate t.dates.completion with
    | some s, some c =>
      if dateOrdinal s < dateOrdinal c then
        let days := dateOrdinal c - dateOrdinal s
        { acc with durTotal := acc.durTotal + days
                   durCount := acc.durCount + 1
                   durations := acc.durations ++ [days] }
      else acc
    | _, _ => acc
  else acc

/-- One iteration of the `for trial in trials` statistics loop. -/
def statsStep (acc : StatsAcc) (t : ParsedStudy) : StatsAcc :=
  let acc := { acc with phases := t.phases.foldl bump acc.phases }
  let acc := { acc with statuses := bump acc.statuses t.status }
  let acc := { acc with studyTypes := bump acc.studyTypes t.studyType }
  let acc := { acc with sponsors := bump acc.sponsors t.sponsor }
  let acc :=
    if t.enrollment.count ≠ 0 then
      { acc with enrollTotal := acc.enrollTotal + t.enrollment.count
                 enrollCount := acc.enrollCount + 1 }
    else acc
  durationStep t acc

/-- Python `round(x, k)` modelled over exact rationals (the float
tie-breaking differences are immaterial to the values computed here). -/
def pyRound (k : Nat) (q : ℚ) : ℚ :=
  (Int.floor (q * (10 ^ k : ℚ) + 1 / 2) : ℚ) / (10 ^ k : ℚ)

/-- Final duration block: averages and min/max are present only when at
least one duration was accumulated; the raw list is discarded. -/
structure DurationStats where
  totalDays : Nat
  count : Nat
  averageDays : Option ℚ
  averageMonths : Option ℚ
  averageYears : Option ℚ
  minDays : Option Nat
  maxDays : Option Nat
  deriving DecidableEq, Repr

structure EnrollmentStats where
  total : Nat
  count : Nat
  average : Option ℚ
  deriving DecidableEq, Repr

/-- The Statistics Bundle `calculate_statistics` returns on success. -/
structure Stats where
  totalTrials : Nat
  trialNctIds : List String
  phases : List (String × Nat)
  statuses : List (String × Nat)
  studyTypes : List (String × Nat)
  sponsors : List (String × Nat)
  enrollment : EnrollmentStats
  duration : DurationStats
  deriving DecidableEq, Repr

/-- The whole statistics fold plus the post-loop finalisation, over an
already-fetched record list. -/
def statsOfTrials (trials : List ParsedStudy) : Stats :=
  let acc := trials.foldl statsStep {}
  let avgDays : ℚ := (acc.durTotal : ℚ) / (acc.durCount : ℚ)
  { totalTrials := trials.length
    trialNctIds := (trials.filter (fun t => t.nctId ≠ "")).map (·.nctId)
    phases := acc.phases
    statuses := acc.statuses
    studyTypes := acc.studyTypes
    sponsors := acc.sponsors
    enrollment :=
      { total := acc.enrollTotal
        count := acc.enrollCount
        average :=
          if 0 < acc.enrollCount then
            some ((acc.enrollTotal : ℚ) / (acc.enrollCount : ℚ))
          else none }
    duration :=
      { totalDays := acc.durTotal
        count := acc.durCount
        averageDays := if 0 < acc.durCount then some (pyRound 1 avgDays) else none
        averageMonths :=
          if 0 < acc.durCount then some (pyRound 1 (avgDays / (3044 / 100 : ℚ))) else none
        averageYears :=
          if 0 < acc.durCount then some (pyRound 2 (avgDays / (36525 / 100 : ℚ))) else none
        minDays := if 0 < acc.durCount then acc.durations.min? else none
        maxDays := if 0 < acc.durCount then acc.durations.max? else none } }

inductive StatsResult where
  | error (msg : String)
  | ok (stats : Stats)
  deriving DecidableEq, Repr

/-- The five-field filter `calculate_statistics` forwards to
`search_trials` (the remaining search fields stay `None`). -/
def statsFilter (condition phase status location sponsor : Option String) : Filter :=
  { condition := condition, phase := phase, status := status
    location := location, sponsor := sponsor }

/-- Embedding of `calculate_statistics`. -/
def calculateStatistics (fetch : Fetch)
    (condition phase status location sponsor : Option String)
    (maxResults : Int) : StatsResult :=
  match searchTrials fetch (statsFilter condition phase status location sponsor) maxResults with
  | .error m => .error m
  | .ok trials => .ok (statsOfTrials trials)

/-! ### Spec-side query grammar (for the refinement claim)

`specClauses` is written from the spec's words (§4.1): each present
filter field maps to one `AREA[<Field>]<value>` clause, the date pair to
one `RANGE` clause with `MIN`/`MAX` for open bounds, all in declaration
order.  It is compared with `searchQueryParts`, the translation of the
source. -/

def specClause (area : String) : Option String → List String
  | none => []
  | some v => ["AREA[" ++ area ++ "]" ++ v]

def specDateClause : Option String → Option String → List String
  | some a, some b => ["AREA[StartDate]RANGE[" ++ a ++ "," ++ b ++ "]"]
  | some a, none => ["AREA[StartDate]RANGE[" ++ a ++ ",MAX]"]
  | none, some b => ["AREA[StartDate]RANGE[MIN," ++ b ++ "]"]
  | none, none => []

def specClauses (f : Filter) : List String :=
  specClause "Condition" f.condition ++ specClause "Phase" f.phase ++
  specClause "OverallStatus" f.status ++ specClause "LocationCountry" f.location ++
  specClause "LeadSponsorName" f.sponsor ++ specClause "InterventionName" f.intervention ++
  specClause "StudyType" f.studyType ++ specDateClause f.startDateFrom f.startDateTo

/-! ### Empty-string normalisation (for the falsy-filter claim) -/

/-- Replace an explicit empty-string argument by an omitted one. -/
def emptyToNone (o : Option String) : Option String :=
  match o with
  | none => none
  | some s => if s = "" then none else some s

/-- The map `emptyToNone` applied to every field of a search filter. -/
def normFilter (f : Filter) : Filter :=
  { condition := emptyToNone f.condition
    phase := emptyToNone f.phase
    status := emptyToNone f.status
    location := emptyToNone f.location
    sponsor := emptyToNone f.sponsor
    intervention := emptyToNone f.intervention
    studyType := emptyToNone f.studyType
    startDateFrom := emptyToNone f.startDateFrom
    startDateTo := emptyToNone f.startDateTo }

/-- The guard of the duration branch: both date strings truthy, both
parseable, completion strictly after start. -/
def contributesDuration (t : ParsedStudy) : Bool :=
  if t.dates.start ≠ "" ∧ t.dates.completion ≠ "" then
    match parseDate t.dates.start, parseDate t.dates.completion with
    | some s, some c => decide (dateOrdinal s < dateOrdinal c)
    | _, _ => false
  else false

/-- The `count` value carried by a `count_trials` result (0 for the
error dict). -/
def countResultCount : CountResult → Nat
  | .error _ => 0
  | .ok n _ _ => n

/-! ### Concrete fixtures used by witnesses and counterexamples -/

/-- A show-endpoint registry whose every request raises. -/
def timeoutShowFetch : ShowFetch := fun _ => .error "Connection timed out"

/-- A registry that honours `pageSize` (trivially, by returning no
studies) and rejects malformed page sizes. -/
def honoringFetch : Fetch := fun p =>
  if p.pageSize < 0 then .failure "invalid page size" else .success {}

/-- A registry serving three count pages of sizes 1, 2 and 3 chained by
continuation tokens, the third still advertising another page. -/
def threePageFetch : Fetch := fun p =>
  match p.pageToken with
  | none => .success { studies := [{}], nextPageToken := some "A" }
  | some "A" => .success { studies := [{}, {}], nextPageToken := some "B" }
  | some "B" => .success { studies := [{}, {}, {}], nextPageToken := some "C" }
  | some _ => .failure "no such page"

/-- A trial carrying 51 locations. -/
def manyLocTrial : RawStudy := { nctId := "NCT01", locations := List.replicate 51 {} }

/-- A registry returning the single 51-location trial. -/
def manyLocFetch : Fetch := fun _ => .success { studies := [manyLocTrial] }

def mkDates (start completion : String) : Dates :=
  { start := start, startType := "", completion := completion, completionType := ""
    primaryCompletion := "", firstPosted := "", lastUpdated := "", firstSubmit := "" }

/-- Record with start 2020-01-01 and completion 2020-12-31. -/
def durRecord1 : ParsedStudy := { dates := mkDates "2020-01-01" "2020-12-31" }

/-- Record whose start and completion dates are both 2021-06-01. -/
def durRecord2 : ParsedStudy := { dates := mkDates "2021-06-01" "2021-06-01" }

/-- Record whose eligibility blob is exactly the inclusion marker plus
a colon and one fragment, with no exclusion marker. -/
def inclusionOnlyRecord : ParsedStudy :=
  { eligibility := { criteria := "Inclusion Criteria: age 18+" } }

/-- A raw study exercising the truncation-sensitive fields. -/
def sampleRaw : RawStudy :=
  { nctId := "NCT07"
    eligibilityCriteria := "Inclusion Criteria: adults"
    interventions := [{ itype := "Drug", name := "X", description := "infusion" }] }

/-- A filter with three present fields (one an open-ended date range). -/
def sampleFilter : Filter :=
  { condition := some "diabetes", phase := some "Phase 3"
    startDateFrom := some "2020-01-01" }

/-! ### Helper lemmas -/

theorem pyTake_length_le (s : String) (n : Nat) : (pyTake s n).length ≤ n := by
  show (s.data.take n).length ≤ n
  simp only [List.length_take]
  omega

theorem seg_spec (o : Option String) (area : String) (h : o ≠ some "") :
    seg o area = specClause area o := by
  cases o with
  | none => rfl
  | some s =>
    have hs : s ≠ "" := fun he => h (by rw [he])
    simp [seg, truthy, specClause, hs]

theorem dateSeg_spec (a b : Option String) (ha : a ≠ some "") (hb : b ≠ some "") :
    dateSeg a b = specDateClause a b := by
  cases a with
  | none =>
    cases b with
    | none => rfl
    | some t =>
      have ht : t ≠ "" := fun he => hb (by rw [he])
      simp [dateSeg, truthy, specDateClause, ht]
  | some s =>
    have hs : s ≠ "" := fun he => ha (by rw [he])
    cases b with
    | none => simp [dateSeg, truthy, specDateClause, hs]
    | some t =>
      have ht : t ≠ "" := fun he => hb (by rw [he])
      simp [dateSeg, truthy, specDateClause, hs, ht]

theorem truthy_emptyToNone (o : Option String) : truthy (emptyToNone o) = truthy o := by
  cases o with
  | none => rfl
  | some s =>
    by_cases hs : s = ""
    · subst hs; rfl
    · simp [emptyToNone, truthy, hs]

theorem seg_emptyToNone (o : Option String) (area : String) :
    seg (emptyToNone o) area = seg o area := by
  cases o with
  | none => rfl
  | some s =>
    by_cases hs : s = ""
    · subst hs; simp [emptyToNone, seg, truthy]
    · simp [emptyToNone, hs]

theorem dateSeg_emptyToNone (a b : Option String) :
    dateSeg (emptyToNone a) (emptyToNone b) = dateSeg a b := by
  have hval : ∀ o : Option String, truthy o = true → emptyToNone o = o := by
    intro o ho
    cases o with
    | none => rfl
    | some s =>
      have hs : s ≠ "" := by simpa [truthy] using ho
      simp [emptyToNone, hs]
  simp only [dateSeg, truthy_emptyToNone]
  by_cases ha : truthy a = true <;> by_cases hb : truthy b = true <;>
    simp [ha, hb, hval, Option.getD]

theorem countVisited_length_le (fetch : Fetch) (c p s l : Option String) :
    ∀ fuel tok, (countVisited fetch c p s l fuel tok).length ≤ fuel := by
  intro fuel
  induction fuel with
  | zero => intro tok; simp [countVisited]
  | succ k ih =>
    intro tok
    rw [countVisited]
    cases hf : fetch (countParams c p s l tok) with
    | failure m => simp
    | success r =>
      by_cases ht : tokTruthy r.nextPageToken = true
      · simpa [ht] using ih r.nextPageToken
      · simp [ht]

theorem durationStep_skip (t : ParsedStudy) (hskip : contributesDuration t = false) :
    ∀ acc : StatsAcc, durationStep t acc = acc := by
  intro acc
  unfold contributesDuration at hskip
  unfold durationStep
  by_cases hc : t.dates.start ≠ "" ∧ t.dates.completion ≠ ""
  · rw [if_pos hc]; rw [if_pos hc] at hskip
    cases hs : parseDate t.dates.start with
    | none => rfl
    | some ds =>
      cases hcd : parseDate t.dates.completion with
      | none => rfl
      | some dc =>
        rw [hs, hcd] at hskip
        simp only [decide_eq_false_iff_not] at hskip
        simp [hskip]
  · rw [if_neg hc]

theorem sitesInner_spec (nct : String) (ls : List RawLocation) :
    ∀ acc : List SiteRecord, acc.length < 50 →
      sitesInner nct ls acc = acc ++ (ls.map (mkSite nct)).take (50 - acc.length) := by
  induction ls with
  | nil => intro acc _; simp [sitesInner]
  | cons l ls ih =>
    intro acc h
    rw [sitesInner]
    simp only [List.length_append, List.length_singleton]
    by_cases h50 : 50 ≤ acc.length + 1
    · rw [if_pos h50]
      have hlen : acc.length = 49 := by omega
      have : 50 - acc.length = 1 := by omega
      simp [this]
    · rw [if_neg h50]
      have hlt : (acc ++ [mkSite nct l]).length < 50 := by simp; omega
      rw [ih _ hlt]
      have harith : 50 - acc.length = (50 - (acc ++ [mkSite nct l]).length) + 1 := by
        simp only [List.length_append, List.length_singleton]; omega
      rw [harith, List.map_cons, List.take_succ_cons, List.append_assoc]
      simp

theorem sitesOuter_spec (ts : List RawStudy) :
    ∀ acc : List SiteRecord, acc.length < 50 →
      sitesOuter ts acc = acc ++ (flattenSites ts).take (50 - acc.length) := by
  induction ts with
  | nil => intro acc _; simp [sitesOuter, flattenSites]
  | cons t ts ih =>
    intro acc h
    rw [sitesOuter]
    rw [sitesInner_spec t.nctId t.locations acc h]
    have hflat : flattenSites (t :: ts)
        = t.locations.map (mkSite t.nctId) ++ flattenSites ts := by
      simp [flattenSites]
    by_cases h50 :
        50 ≤ (acc ++ (t.locations.map (mkSite t.nctId)).take (50 - acc.length)).length
    · rw [if_pos h50]
      have hL : 50 - acc.length ≤ (t.locations.map (mkSite t.nctId)).length := by
        simp only [List.length_append, List.length_take] at h50
        omega
      rw [hflat, List.take_append_eq_append_take]
      have hz : 50 - acc.length - (t.locations.map (mkSite t.nctId)).length = 0 := by
        omega
      rw [hz, List.take_zero, List.append_nil]
    · rw [if_neg h50]
      have hlt :
          (acc ++ (t.locations.map (mkSite t.nctId)).take (50 - acc.length)).length < 50 := by
        omega
      rw [ih _ hlt]
      have hL : (t.locations.map (mkSite t.nctId)).length < 50 - acc.length := by
        simp only [List.length_append, List.length_take] at hlt
        omega
      have htake :
          (t.locations.map (mkSite t.nctId)).take (50 - acc.length)
            = t.locations.map (mkSite t.nctId) :=
        List.take_of_length_le (le_of_lt hL)
      rw [htake, hflat, List.take_append_eq_append_take, List.append_assoc]
      have : (acc ++ t.locations.map (mkSite t.nctId)).length
          = acc.length + (t.locations.map (mkSite t.nctId)).length := by simp
      rw [this]
      have harith : 50 - (acc.length + (t.locations.map (mkSite t.nctId)).length)
          = 50 - acc.length - (t.locations.map (mkSite t.nctId)).length := by omega
      rw [harith, htake]

/-! ### Claim theorems -/

/-- C1 (counterexample): `show_trials` has no `try` block, so a raised
transport failure (here a timeout) escapes to the caller instead of
being converted to the single-key error dict — refuting the claim that
every Registry Client operation converts every transport or parse
failure into `{"error": <message>}`. -/
theorem showTrials_raises_counterexample :
    showTrials timeoutShowFetch "NCT00000000" = .raised "Connection timed out" := rfl

/-- C1 (amended): `count_trials`, `search_trials` and `extract_sites`
convert every transport or parse failure — including one on a later
count page — into the single-key `{"error": <message>}` value and never
raise; `show_trials` alone propagates the raised exception. -/
theorem registryClient_error_policy (m i : String) (f : Filter)
    (c p s l : Option String) (N : Int) (n : Nat) :
    searchTrials (fun _ => .failure m) f N = .error m ∧
    extractSites (fun _ => .failure m) c p s l N = .error m ∧
    countTrials (fun _ => .failure m) c p s l = .error m ∧
    countTrials
      (fun q => if q.pageToken = some "t2" then .failure m
        else .success { studies := List.replicate n {}, nextPageToken := some "t2" })
      c p s l = .error m ∧
    showTrials (fun _ => .error m) i = .raised m := by
  refine ⟨rfl, rfl, rfl, ?_, rfl⟩
  simp [countTrials, countLoop, countParams, tokTruthy, truthy]

/-- C2: with a registry that honours the requested page size,
`search_trials(max_results=N)` returns at most `min(N, 20)` records,
and for `N > 20` it issues the request of `N = 20` and returns its
result. -/
theorem searchTrials_cap (fetch : Fetch) (f : Filter) (N : Int)
    (hhon : ∀ p r, fetch p = .success r → (r.studies.length : Int) ≤ p.pageSize) :
    (∀ recs, searchTrials fetch f N = .ok recs → (recs.length : Int) ≤ min N 20) ∧
    (20 < N → searchParams f N = searchParams f 20 ∧
      searchTrials fetch f N = searchTrials fetch f 20) := by
  constructor
  · intro recs hok
    unfold searchTrials at hok
    cases hf : fetch (searchParams f N) with
    | failure m => rw [hf] at hok; cases hok
    | success r =>
      rw [hf] at hok
      injection hok with hrec
      have hlen : recs.length = r.studies.length := by
        rw [← hrec, List.length_map]
      have hbound := hhon _ _ hf
      simp only [searchParams] at hbound
      rw [hlen]
      exact hbound
  · intro h20
    have hmin : min N 20 = (20 : Int) := min_eq_right (le_of_lt h20)
    have hp : searchParams f N = searchParams f 20 := by
      simp [searchParams, hmin]
    exact ⟨hp, by rw [searchTrials, searchTrials, hp]⟩

/-- C2 (witness): the cap theorem applied to a concrete honouring
registry at `N = 25`. -/
theorem searchTrials_cap_witness :
    searchParams {} 25 = searchParams {} 20 ∧
    searchTrials honoringFetch {} 25 = searchTrials honoringFetch {} 20 :=
  (searchTrials_cap honoringFetch {} 25 (fun p r h => by
    unfold honoringFetch at h
    by_cases hps : p.pageSize < 0
    · rw [if_pos hps] at h; cases h
    · rw [if_neg hps] at h
      injection h with hr
      rw [← hr]
      simp
      omega)).2 (by decide)

/-- C4 (counterexample): on the record whose eligibility blob is
exactly "Inclusion Criteria: age 18+", `analyze_criteria` does not
return `{"inclusion": ["age 18+"], "exclusion": []}` — Python's
`strip()` removes only whitespace, so the colon after the marker stays
in the fragment. -/
theorem analyzeCriteria_inclusion_counterexample :
    analyzeCriteria (.trials [inclusionOnlyRecord]) ≠ .result ["age 18+"] [] := by
  decide

/-- C4 (amended): on that record, `analyze_criteria` returns the text
after the inclusion marker trimmed of whitespace only, keeping the
leading colon: `{"inclusion": [": age 18+"], "exclusion": []}`. -/
theorem analyzeCriteria_inclusion_only :
    analyzeCriteria (.trials [inclusionOnlyRecord]) = .result [": age 18+"] [] := by
  decide

/-- C5: aggregation-layer error transparency — `analyze_criteria`
returns an error dict unchanged, and when its internal search yields an
error value `calculate_statistics` returns that error unchanged. -/
theorem aggregation_error_transparency (m : String) (fetch : Fetch)
    (c p s l sponsor : Option String) (N : Int)
    (hsearch : searchTrials fetch (statsFilter c p s l sponsor) N = .error m) :
    analyzeCriteria (.errDict m) = .errDict m ∧
    calculateStatistics fetch c p s l sponsor N = .error m := by
  exact ⟨rfl, by rw [calculateStatistics, hsearch]⟩

/-- C5 (witness): transparency at a concrete failing registry. -/
theorem aggregation_error_transparency_witness :
    analyzeCriteria (.errDict "boom") = .errDict "boom" ∧
    calculateStatistics (fun _ => .failure "boom") none none none none none 20
      = .error "boom" :=
  aggregation_error_transparency "boom" (fun _ => .failure "boom")
    none none none none none 20 rfl

/-- C3: `count_trials` fetches at most 3 pages; when the registry
reports no further page within them it returns the exact sum of the
page sizes, when a continuation token survives the third page it
returns the partial sum with `is_exact=False` and the "At least"
note, and with pages of at most 100 records the count never exceeds
300. -/
theorem countTrials_bounded_pagination (fetch : Fetch) (c p s l : Option String)
    (r1 r2 r3 : Resp)
    (h1 : fetch (countParams c p s l none) = .success r1)
    (h2 : tokTruthy r1.nextPageToken = true →
      fetch (countParams c p s l r1.nextPageToken) = .success r2)
    (h3 : tokTruthy r1.nextPageToken = true → tokTruthy r2.nextPageToken = true →
      fetch (countParams c p s l r2.nextPageToken) = .success r3) :
    (countVisited fetch c p s l 3 none).length ≤ 3 ∧
    (tokTruthy r1.nextPageToken = false →
      countTrials fetch c p s l = .ok r1.studies.length true none) ∧
    (tokTruthy r1.nextPageToken = true → tokTruthy r2.nextPageToken = false →
      countTrials fetch c p s l
        = .ok (r1.studies.length + r2.studies.length) true none) ∧
    (tokTruthy r1.nextPageToken = true → tokTruthy r2.nextPageToken = true →
      tokTruthy r3.nextPageToken = false →
      countTrials fetch c p s l
        = .ok (r1.studies.length + r2.studies.length + r3.studies.length) true none) ∧
    (tokTruthy r1.nextPageToken = true → tokTruthy r2.nextPageToken = true →
      tokTruthy r3.nextPageToken = true →
      countTrials fetch c p s l
        = .ok (r1.studies.length + r2.studies.length + r3.studies.length) false
            (some ("At least "
              ++ toString (r1.studies.length + r2.studies.length + r3.studies.length)
              ++ " trials"))) ∧
    (r1.studies.length ≤ 100 → r2.studies.length ≤ 100 → r3.studies.length ≤ 100 →
      countResultCount (countTrials fetch c p s l) ≤ 300) := by
  have hrun1 : ∀ ht1 : tokTruthy r1.nextPageToken = false,
      countTrials fetch c p s l = .ok r1.studies.length true none := by
    intro ht1
    simp [countTrials, countLoop, h1, ht1]
  have hrun2 : ∀ (ht1 : tokTruthy r1.nextPageToken = true)
      (ht2 : tokTruthy r2.nextPageToken = false),
      countTrials fetch c p s l
        = .ok (r1.studies.length + r2.studies.length) true none := by
    intro ht1 ht2
    simp [countTrials, countLoop, h1, ht1, h2 ht1, ht2]
  have hrun3 : ∀ (ht1 : tokTruthy r1.nextPageToken = true)
      (ht2 : tokTruthy r2.nextPageToken = true)
      (ht3 : tokTruthy r3.nextPageToken = false),
      countTrials fetch c p s l
        = .ok (r1.studies.length + r2.studies.length + r3.studies.length) true none := by
    intro ht1 ht2 ht3
    simp [countTrials, countLoop, h1, ht1, h2 ht1, ht2, h3 ht1 ht2, ht3]
  have hrun4 : ∀ (ht1 : tokTruthy r1.nextPageToken = true)
      (ht2 : tokTruthy r2.nextPageToken = true)
      (ht3 : tokTruthy r3.nextPageToken = true),
      countTrials fetch c p s l
        = .ok (r1.studies.length + r2.studies.length + r3.studies.length) false
            (some ("At least "
              ++ toString (r1.studies.length + r2.studies.length + r3.studies.length)
              ++ " trials")) := by
    intro ht1 ht2 ht3
    simp [countTrials, countLoop, h1, ht1, h2 ht1, ht2, h3 ht1 ht2, ht3]
  refine ⟨countVisited_length_le fetch c p s l 3 none, hrun1, hrun2, hrun3, hrun4, ?_⟩
  intro hb1 hb2 hb3
  cases ht1 : tokTruthy r1.nextPageToken with
  | false => rw [hrun1 ht1]; simp [countResultCount]; omega
  | true =>
    cases ht2 : tokTruthy r2.nextPageToken with
    | false => rw [hrun2 ht1 ht2]; simp [countResultCount]; omega
    | true =>
      cases ht3 : tokTruthy r3.nextPageToken with
      | false => rw [hrun3 ht1 ht2 ht3]; simp [countResultCount]; omega
      | true => rw [hrun4 ht1 ht2 ht3]; simp [countResultCount]; omega

/-- C3 (witness): the pagination theorem at a concrete three-page
registry whose third page still advertises a continuation token. -/
theorem countTrials_bounded_pagination_witness :
    countTrials threePageFetch none none none none
      = .ok (1 + 2 + 3) false
          (some ("At least " ++ toString (1 + 2 + 3) ++ " trials")) := by
  have h := countTrials_bounded_pagination threePageFetch none none none none
    { studies := [{}], nextPageToken := some "A" }
    { studies := [{}, {}], nextPageToken := some "B" }
    { studies := [{}, {}, {}], nextPageToken := some "C" }
    rfl (fun _ => rfl) (fun _ _ => rfl)
  exact h.2.2.2.2.1 rfl rfl rfl

/-- C6: when the registry response's trials carry more than 50
locations combined, `extract_sites` returns exactly the first 50
entries of the flattening in trial order then location order,
truncating mid-trial. -/
theorem extractSites_cap50 (fetch : Fetch) (c p s l : Option String) (N : Int)
    (r : Resp)
    (hf : fetch (extractParams c p s l N) = .success r)
    (hbig : 50 < (flattenSites r.studies).length) :
    extractSites fetch c p s l N = .ok ((flattenSites r.studies).take 50) ∧
    ((flattenSites r.studies).take 50).length = 50 := by
  constructor
  · rw [extractSites, hf]
    show SitesResult.ok (sitesOuter r.studies []) = _
    rw [sitesOuter_spec r.studies [] (by simp)]
    simp
  · simp only [List.length_take]
    omega

/-- C6 (witness): the cap theorem at a registry returning one trial
with 51 locations. -/
theorem extractSites_cap50_witness :
    extractSites manyLocFetch none none none none 10
      = .ok ((flattenSites [manyLocTrial]).take 50) ∧
    ((flattenSites [manyLocTrial]).take 50).length = 50 :=
  extractSites_cap50 manyLocFetch none none none none 10
    { studies := [manyLocTrial] } rfl (by decide)

/-- C7: over the two records with start/completion 2020-01-01 and
2020-12-31 versus the equal pair 2021-06-01/2021-06-01 the duration
statistics count exactly one pair and average 365.0 days (the
equal-date pair is excluded); and any record with a missing date, an
unparseable date, or a completion not strictly after the start leaves
the duration accumulator (total, count, durations) untouched. -/
theorem duration_statistics_fold (t : ParsedStudy) (acc : StatsAcc)
    (hskip : contributesDuration t = false) :
    (statsOfTrials [durRecord1, durRecord2]).duration.count = 1 ∧
    (statsOfTrials [durRecord1, durRecord2]).duration.averageDays = some (365 : ℚ) ∧
    durationStep t acc = acc ∧
    (statsStep acc t).durCount = acc.durCount ∧
    (statsStep acc t).durTotal = acc.durTotal := by
  have hstep := durationStep_skip t hskip
  have havg : (statsOfTrials [durRecord1, durRecord2]).duration.averageDays
      = some (365 : ℚ) := by
    have hacc : List.foldl statsStep ({} : StatsAcc) [durRecord1, durRecord2]
        = { statuses := [("", 2)], studyTypes := [("", 2)], sponsors := [("", 2)],
            durTotal := 365, durCount := 1, durations := [365] } := by decide
    simp only [statsOfTrials, hacc]
    norm_num [pyRound]
  refine ⟨by decide, havg, hstep acc, ?_, ?_⟩
  · simp only [statsStep, hstep]
    by_cases he : t.enrollment.count ≠ 0 <;> simp [he]
  · simp only [statsStep, hstep]
    by_cases he : t.enrollment.count ≠ 0 <;> simp [he]

/-- C7 (witness): the fold theorem instantiated at the equal-date
record, which indeed contributes nothing. -/
theorem duration_statistics_fold_witness :
    (statsOfTrials [durRecord1, durRecord2]).duration.count = 1 ∧
    (statsOfTrials [durRecord1, durRecord2]).duration.averageDays = some (365 : ℚ) ∧
    durationStep durRecord2 {} = {} ∧
    (statsStep {} durRecord2).durCount = ({} : StatsAcc).durCount ∧
    (statsStep {} durRecord2).durTotal = ({} : StatsAcc).durTotal :=
  duration_statistics_fold durRecord2 {} (by decide)

/-- C8: for filters whose provided fields are non-empty strings, the
query `search_trials` builds is exactly one `AREA[<Field>]<value>`
clause per non-null field in declaration order (`specClauses`, written
from the spec's grammar), joined with " AND "; a filter with zero
present fields yields no `query.term` parameter at all. -/
theorem query_construction_bijection (f : Filter) (N : Int)
    (h : ∀ o ∈ [f.condition, f.phase, f.status, f.location, f.sponsor,
      f.intervention, f.studyType, f.startDateFrom, f.startDateTo], o ≠ some "") :
    searchQueryParts f = specClauses f ∧
    (searchParams f N).queryTerm
      = (if specClauses f = [] then none
         else some (String.intercalate " AND " (specClauses f))) ∧
    (f.condition = none → f.phase = none → f.status = none → f.location = none →
     f.sponsor = none → f.intervention = none → f.studyType = none →
     f.startDateFrom = none → f.startDateTo = none →
     (searchParams f N).queryTerm = none) := by
  have hmain : searchQueryParts f = specClauses f := by
    rw [searchQueryParts, specClauses,
      seg_spec f.condition "Condition" (h _ (by simp)),
      seg_spec f.phase "Phase" (h _ (by simp)),
      seg_spec f.status "OverallStatus" (h _ (by simp)),
      seg_spec f.location "LocationCountry" (h _ (by simp)),
      seg_spec f.sponsor "LeadSponsorName" (h _ (by simp)),
      seg_spec f.intervention "InterventionName" (h _ (by simp)),
      seg_spec f.studyType "StudyType" (h _ (by simp)),
      dateSeg_spec f.startDateFrom f.startDateTo (h _ (by simp)) (h _ (by simp))]
  refine ⟨hmain, ?_, ?_⟩
  · rw [searchParams]
    simp only [queryTermOf, hmain]
  · intro e1 e2 e3 e4 e5 e6 e7 e8 e9
    have hempty : searchQueryParts f = [] := by
      simp [searchQueryParts, seg, dateSeg, truthy, e1, e2, e3, e4, e5, e6, e7, e8, e9]
    rw [searchParams]
    simp [queryTermOf, hempty]

/-- C8 (witness): the bijection at a filter with three present fields,
one an open-ended date range. -/
theorem query_construction_bijection_witness :
    searchQueryParts sampleFilter = specClauses sampleFilter ∧
    (searchParams sampleFilter 10).queryTerm
      = some ("AREA[Condition]diabetes AND AREA[Phase]Phase 3"
          ++ " AND AREA[StartDate]RANGE[2020-01-01,MAX]") :=
  ⟨(query_construction_bijection sampleFilter 10 (by decide)).1, by decide⟩

/-- C9: with `full_details=False` (as `search_trials` uses
`_parse_study`) the record is the compact variant — criteria blob at
most 800 characters, every intervention description at most 200, no
full-detail keys — and with `full_details=True` (as `show_trials` uses
it) those fields are untruncated and the full-detail keys are populated
from the raw study. -/
theorem parseStudy_compact_full (s : RawStudy) (fetch : Fetch) (f : Filter)
    (N : Int) (sfetch : ShowFetch) (i : String) (r : Resp) (raw : RawStudy) :
    (parseStudy s false).eligibility.criteria.length ≤ 800 ∧
    (∀ iv ∈ (parseStudy s false).interventions, iv.description.length ≤ 200) ∧
    (parseStudy s false).extras = none ∧
    (parseStudy s true).eligibility.criteria = s.eligibilityCriteria ∧
    (parseStudy s true).interventions
      = s.interventions.map (fun iv => ⟨iv.itype, iv.name, iv.description⟩) ∧
    (parseStudy s true).extras
      = some
          { officialTitle := s.officialTitle
            organization := s.organizationFullName
            investigator := s.investigatorFullName
            investigatorAffiliation := s.investigatorAffiliation
            briefSummary := s.briefSummary
            detailedDescription := s.detailedDescription
            design := ⟨s.allocation, s.interventionModel, s.primaryPurpose⟩
            primaryOutcomes :=
              s.primaryOutcomes.map (fun o => ⟨o.measure, o.description, o.timeFrame⟩)
            secondaryOutcomes :=
              s.secondaryOutcomes.map (fun o => ⟨o.measure, o.timeFrame⟩) } ∧
    (fetch (searchParams f N) = .success r →
      searchTrials fetch f N = .ok (r.studies.map (parseStudy · false))) ∧
    (sfetch (ctApiBase ++ "/" ++ i) = .ok raw →
      showTrials sfetch i = .returned (parseStudy raw true)) := by
  refine ⟨?_, ?_, rfl, rfl, rfl, rfl, ?_, ?_⟩
  · exact pyTake_length_le s.eligibilityCriteria 800
  · intro iv hiv
    simp only [parseStudy, List.mem_map] at hiv
    obtain ⟨rawIv, _, hIv⟩ := hiv
    rw [← hIv]
    exact pyTake_length_le rawIv.description 200
  · intro hsucc
    rw [searchTrials, hsucc]
  · intro hok
    rw [showTrials, hok]

/-- C9 (witness): the variant theorem at a concrete raw study. -/
theorem parseStudy_compact_full_witness :
    (parseStudy sampleRaw false).eligibility.criteria.length ≤ 800 ∧
    ((parseStudy sampleRaw false).interventions.getD 0
      ⟨"", "", ""⟩).description.length ≤ 200 ∧
    (parseStudy sampleRaw false).extras = none ∧
    (parseStudy sampleRaw true).eligibility.criteria = sampleRaw.eligibilityCriteria := by
  have h := parseStudy_compact_full sampleRaw honoringFetch {} 10
    timeoutShowFetch "NCT07" {} sampleRaw
  refine ⟨h.1, ?_, h.2.2.1, h.2.2.2.1⟩
  exact h.2.1 _ (by decide)

/-- C10: passing the empty string for any filter field of
`search_trials`, `count_trials`, `extract_sites` or
`calculate_statistics` yields exactly the same query parameters and the
same result as omitting the field (falsy fields are treated as absent,
so an empty string never emits an `AREA` clause). -/
theorem empty_string_equals_absent (f : Filter) (c p s l sponsor tok : Option String)
    (fetch : Fetch) (N : Int) :
    searchQueryParts (normFilter f) = searchQueryParts f ∧
    searchParams (normFilter f) N = searchParams f N ∧
    searchTrials fetch (normFilter f) N = searchTrials fetch f N ∧
    basicQueryParts (emptyToNone c) (emptyToNone p) (emptyToNone s) (emptyToNone l)
      = basicQueryParts c p s l ∧
    countParams (emptyToNone c) (emptyToNone p) (emptyToNone s) (emptyToNone l) tok
      = countParams c p s l tok ∧
    countTrials fetch (emptyToNone c) (emptyToNone p) (emptyToNone s) (emptyToNone l)
      = countTrials fetch c p s l ∧
    extractParams (emptyToNone c) (emptyToNone p) (emptyToNone s) (emptyToNone l) N
      = extractParams c p s l N ∧
    extractSites fetch (emptyToNone c) (emptyToNone p) (emptyToNone s) (emptyToNone l) N
      = extractSites fetch c p s l N ∧
    calculateStatistics fetch (emptyToNone c) (emptyToNone p) (emptyToNone s)
        (emptyToNone l) (emptyToNone sponsor) N
      = calculateStatistics fetch c p s l sponsor N := by
  have hsearchParts : searchQueryParts (normFilter f) = searchQueryParts f := by
    simp only [searchQueryParts, normFilter, seg_emptyToNone, dateSeg_emptyToNone]
  have hsearchParams : searchParams (normFilter f) N = searchParams f N := by
    simp only [searchParams, hsearchParts]
  have hsearch : searchTrials fetch (normFilter f) N = searchTrials fetch f N := by
    rw [searchTrials, searchTrials, hsearchParams]
  have hbasic :
      basicQueryParts (emptyToNone c) (emptyToNone p) (emptyToNone s) (emptyToNone l)
        = basicQueryParts c p s l := by
    simp only [basicQueryParts, seg_emptyToNone]
  have hcountParams : ∀ tk,
      countParams (emptyToNone c) (emptyToNone p) (emptyToNone s) (emptyToNone l) tk
        = countParams c p s l tk := by
    intro tk
    simp only [countParams, hbasic]
  have hcount :
      countTrials fetch (emptyToNone c) (emptyToNone p) (emptyToNone s) (emptyToNone l)
        = countTrials fetch c p s l := by
    rw [countTrials, countTrials]
    have hloop : ∀ fuel acc tk,
        countLoop fetch (emptyToNone c) (emptyToNone p) (emptyToNone s) (emptyToNone l)
            fuel acc tk
          = countLoop fetch c p s l fuel acc tk := by
      intro fuel
      induction fuel with
      | zero => intro acc tk; rfl
      | succ k ih =>
        intro acc tk
        rw [countLoop, countLoop, hcountParams tk]
        cases fetch (countParams c p s l tk) with
        | failure m => rfl
        | success r =>
          by_cases ht : tokTruthy r.nextPageToken = true <;> simp [ht, ih]
    exact hloop 3 0 none
  have hextractParams :
      extractParams (emptyToNone c) (emptyToNone p) (emptyToNone s) (emptyToNone l) N
        = extractParams c p s l N := by
    simp only [extractParams, hbasic]
  have hextract :
      extractSites fetch (emptyToNone c) (emptyToNone p) (emptyToNone s) (emptyToNone l) N
        = extractSites fetch c p s l N := by
    rw [extractSites, extractSites, hextractParams]
  have hstatsFilter :
      statsFilter (emptyToNone c) (emptyToNone p) (emptyToNone s) (emptyToNone l)
          (emptyToNone sponsor)
        = normFilter (statsFilter c p s l sponsor) := rfl
  have hstats :
      calculateStatistics fetch (emptyToNone c) (emptyToNone p) (emptyToNone s)
          (emptyToNone l) (emptyToNone sponsor) N
        = calculateStatistics fetch c p s l sponsor N := by
    rw [calculateStatistics, calculateStatistics, hstatsFilter]
    have : searchTrials fetch (normFilter (statsFilter c p s l sponsor)) N
        = searchTrials fetch (statsFilter c p s l sponsor) N := by
      rw [searchTrials, searchTrials]
      have hp : searchParams (normFilter (statsFilter c p s l sponsor)) N
          = searchParams (statsFilter c p s l sponsor) N := by
        simp only [searchParams, searchQueryParts, normFilter,
          seg_emptyToNone, dateSeg_emptyToNone]
      rw [hp]
    rw [this]
  exact ⟨hsearchParts, hsearchParams, hsearch, hbasic, hcountParams tok, hcount,
    hextractParams, hextract, hstats⟩

end CTA
